import Mathlib

/-!
Shallow embedding of the MLB MCP server's entity-resolution and
response-normalization core (`mlb_api.py`), together with theorems that
settle the spec's claims about it.

Python conventions modelled explicitly:
* `int(s)`  — optional surrounding whitespace, optional sign, non-empty
  digit string; failure is `none` (a raised `ValueError`).
* `s.lower()` / `s.strip()` — ASCII case folding and whitespace trimming
  over the character list of the string.
* `a in b`  — contiguous substring containment.
-/

namespace MlbApi

/-- Characters Python's `str.strip()` removes by default (ASCII part). -/
def isPySpace (c : Char) : Bool :=
  c == ' ' || c == '\t' || c == '\n' || c == '\r' || c == '\x0b' || c == '\x0c'

/-- Python `s.strip()` on a character list. -/
def pyStrip (s : List Char) : List Char :=
  ((s.dropWhile isPySpace).reverse.dropWhile isPySpace).reverse

/-- Python `s.strip()` on a string. -/
def strStrip (s : String) : String := ⟨pyStrip s.data⟩

/-- Python `s.lower()` on a string (ASCII case folding). -/
def strLower (s : String) : String := ⟨s.data.map Char.toLower⟩

/-- Value of a decimal digit character, `none` for a non-digit. -/
def digitVal (c : Char) : Option Nat :=
  if '0' ≤ c ∧ c ≤ '9' then some (c.toNat - '0'.toNat) else none

/-- Parse a non-empty list of decimal digits as a natural number. -/
def parseNatDigits (cs : List Char) : Option Nat :=
  match cs with
  | [] => none
  | _ =>
    cs.foldl
      (fun acc c =>
        match acc, digitVal c with
        | some a, some d => some (a * 10 + d)
        | _, _ => none)
      (some 0)

/-- Python `int(s)`: strip whitespace, optional sign, decimal digits.
`none` models a raised `ValueError`. -/
def pyInt (s : String) : Option Int :=
  match pyStrip s.data with
  | '-' :: rest => (parseNatDigits rest).map (fun n => -(n : Int))
  | '+' :: rest => (parseNatDigits rest).map (fun n => (n : Int))
  | cs => (parseNatDigits cs).map (fun n => (n : Int))

/-- Does `needle` occur at the head of `hay`? -/
def leadsWith : List Char → List Char → Bool
  | [], _ => true
  | _ :: _, [] => false
  | c :: cs, d :: ds => c == d && leadsWith cs ds

/-- Does `needle` occur contiguously anywhere in `hay`?  Python `needle in hay`. -/
def occursIn (needle : List Char) : List Char → Bool
  | [] => needle.isEmpty
  | d :: ds => leadsWith needle (d :: ds) || occursIn needle ds

/-- Python `needle in hay` on strings. -/
def strContains (needle hay : String) : Bool := occursIn needle.data hay.data

/-- A single-quote character, used when rebuilding Python f-string messages. -/
def sq : String := String.singleton (Char.ofNat 39)

/-! ## Entity resolver (`get_team_id_from_name`)

The reference table `current_mlb_teams.csv` is external data; a row is
modelled with the columns the spec names.  The code reads only the
`team_name` and `team_id` columns. -/

/-- One row of the reference table of current teams. -/
structure TeamRow where
  team_id : Int
  team_name : String
  abbreviation : String
  location : String
deriving DecidableEq, Repr

/-- `team.lower().strip()` — the normalized form of the caller's query. -/
def normQuery (team : String) : String := strStrip (strLower team)

/-- The exact-match test of the first scan:
`team_lower == row["team_name"].lower().strip()`. -/
def exact_match (q : String) (r : TeamRow) : Bool :=
  q == strStrip (strLower r.team_name)

/-- The substring-match test of the second scan:
`team_lower in row["team_name"].lower()`. -/
def substr_match (q : String) (r : TeamRow) : Bool :=
  strContains q (strLower r.team_name)

/-- `get_team_id_from_name(team)`: stringified-integer passthrough, then an
exact scan of the whole table, then a substring scan of the whole table,
then `None`. -/
def get_team_id_from_name (table : List TeamRow) (team : String) : Option Int :=
  match pyInt team with
  | some n => some n
  | none =>
    let q := normQuery team
    match table.find? (exact_match q) with
    | some r => some r.team_id
    | none =>
      match table.find? (substr_match q) with
      | some r => some r.team_id
      | none => none

/-! ## Raw box-score shape (`mlb.get_game_box_score` result)

The upstream library returns nested duck-typed objects; every attribute the
normalizer reads through `getattr(_, _, default)` or guards with `hasattr`
is modelled as an `Option` field (`none` = attribute absent or `None`). -/

/-- One entry of `player_data.allpositions`. -/
structure PositionRaw where
  abbreviation : Option String
  name : Option String
deriving DecidableEq, Repr

/-- `player_data.gamestatus`. -/
structure GameStatusRaw where
  isonbench : Option Bool
  issubstitute : Option Bool
  status : Option String
deriving DecidableEq, Repr

/-- `player_data.person`. -/
structure PersonRaw where
  id : Option Int
  fullname : Option String
deriving DecidableEq, Repr

/-- One value of the side's `players` dict. -/
structure PlayerDataRaw where
  person : PersonRaw
  jerseynumber : Option String
  allpositions : Option (List PositionRaw)
  battingorder : Option String
  gamestatus : Option GameStatusRaw
deriving DecidableEq, Repr

/-- `team_data.team` — the side's identity object. -/
structure TeamIdentRaw where
  name : Option String
  id : Option Int
deriving DecidableEq, Repr

/-- One side (`boxscore.teams.away` or `.home`); `players` is the keyed
dict of player slots in its iteration order. -/
structure TeamDataRaw where
  team : TeamIdentRaw
  players : Option (List (String × PlayerDataRaw))
deriving DecidableEq, Repr

/-- `boxscore.teams`; either fixed side may be absent. -/
structure TeamsRaw where
  away : Option TeamDataRaw
  home : Option TeamDataRaw
deriving DecidableEq, Repr

/-- The raw box score; `teams` itself may be absent. -/
structure BoxScoreRaw where
  teams : Option TeamsRaw
deriving DecidableEq, Repr

/-! ## Normalized lineup output -/

/-- One entry of the normalized `positions` list. -/
structure PositionInfo where
  position : Option String
  position_name : Option String
deriving DecidableEq, Repr

/-- One entry of the normalized `game_entries` list. -/
structure EntryInfo where
  is_on_bench : Bool
  is_substitute : Bool
  status : Option String
deriving DecidableEq, Repr

/-- A normalized roster entry (`player_info` dict). -/
structure PlayerInfo where
  player_id : Option Int
  player_name : String
  jersey_number : Option String
  positions : List PositionInfo
  batting_order : Option String
  game_entries : List EntryInfo
deriving DecidableEq, Repr

/-- A normalized side (`team_info` dict). -/
structure TeamInfo where
  team_name : String
  team_id : Option Int
  players : List PlayerInfo
deriving DecidableEq, Repr

/-- The normalized `result["teams"]` dict: each of the two fixed keys is
present exactly when that side was present in the raw box score. -/
structure TeamsOut where
  away : Option TeamInfo
  home : Option TeamInfo
deriving DecidableEq, Repr

/-- The value returned by the lineup operation: either the
`{"game_id": ..., "teams": ...}` object or the `{"error": ...}` envelope. -/
inductive LineupResult where
  | ok (game_id : Int) (teams : TeamsOut)
  | err (msg : String)
deriving DecidableEq, Repr

/-! ## The normalizer (`get_mlb_game_lineup`) -/

/-- Build one normalized roster entry from a raw player slot
(the body of the `for player_key, player_data` loop). -/
def extract_player (pd : PlayerDataRaw) : PlayerInfo :=
  { player_id := pd.person.id
    player_name := pd.person.fullname.getD "Unknown"
    jersey_number := pd.jerseynumber
    positions :=
      (pd.allpositions.getD []).map (fun pos => ⟨pos.abbreviation, pos.name⟩)
    batting_order := pd.battingorder
    game_entries :=
      match pd.gamestatus with
      | none => []
      | some gs => [⟨gs.isonbench.getD false, gs.issubstitute.getD false, gs.status⟩] }

/-- The extracted, still unsorted player list of one side: slots whose dict
key starts with `"id"`, in dict iteration order. -/
def raw_players (td : TeamDataRaw) : List PlayerInfo :=
  match td.players with
  | none => []
  | some pls =>
      (pls.filter (fun kv => leadsWith "id".data kv.1.data)).map
        (fun kv => extract_player kv.2)

/-- `str(batting_order).replace("0", "")`. -/
def stripZeros (s : String) : String := ⟨s.data.filter (fun c => c ≠ '0')⟩

/-- `sort_key(player)`: `999` for an absent batting order, otherwise
`int(str(batting_order).replace("0", ""))`; `none` models the
`ValueError` that `int` raises on an empty or non-numeric remainder. -/
def sort_key (p : PlayerInfo) : Option Int :=
  match p.batting_order with
  | none => some 999
  | some bo => pyInt (stripZeros bo)

/-- The sort key as a total function; the default is never reached on the
code path, which sorts only after every key is known to be defined. -/
def sort_keyD (p : PlayerInfo) : Int := (sort_key p).getD 0

/-- The comparison `sort_key(p) <= sort_key(q)` that orders the player list. -/
def battingLE (p q : PlayerInfo) : Prop := sort_keyD p ≤ sort_keyD q

instance : DecidableRel battingLE :=
  fun p q => inferInstanceAs (Decidable (sort_keyD p ≤ sort_keyD q))

instance : IsTotal PlayerInfo battingLE :=
  ⟨fun a b => le_total (sort_keyD a) (sort_keyD b)⟩

instance : IsTrans PlayerInfo battingLE :=
  ⟨fun _ _ _ hab hbc => le_trans hab hbc⟩

/-- The `ValueError` message `int` produces on a bad literal. -/
def intErrMsg (p : PlayerInfo) : String :=
  "invalid literal for int() with base 10: " ++ sq ++
    stripZeros (p.batting_order.getD "") ++ sq

/-- `team_info["players"].sort(key=sort_key)`: CPython computes the key of
every element first (raising if any key raises), then sorts stably by key.
A stable sort by a total preorder is extensionally unique, so it is
rendered with insertion sort. -/
def sort_players (ps : List PlayerInfo) : Except String (List PlayerInfo) :=
  match ps.find? (fun p => (sort_key p).isNone) with
  | some p => .error (intErrMsg p)
  | none => .ok (List.insertionSort battingLE ps)

/-- Normalize one present side: extract and sort its players and attach the
defaulted team identity fields. -/
def build_team (td : TeamDataRaw) : Except String TeamInfo :=
  match sort_players (raw_players td) with
  | .error e => .error e
  | .ok sorted =>
      .ok { team_name := td.team.name.getD "Unknown"
            team_id := td.team.id
            players := sorted }

/-- Normalize one side of the `for team_type in ["away", "home"]` loop:
an absent side contributes no key to the output. -/
def build_side (o : Option TeamDataRaw) : Except String (Option TeamInfo) :=
  match o with
  | none => .ok none
  | some td => (build_team td).map some

/-- The loop over `["away", "home"]`: away is processed first, and a raised
sort-key error on either side aborts the whole request. -/
def normalize_box (box : BoxScoreRaw) : Except String TeamsOut :=
  match box.teams with
  | none => .ok ⟨none, none⟩
  | some ts =>
    match build_side ts.away with
    | .error e => .error e
    | .ok awayOut =>
      match build_side ts.home with
      | .error e => .error e
      | .ok homeOut => .ok ⟨awayOut, homeOut⟩

/-- `get_mlb_game_lineup(game_id)`: the whole body runs under
`try/except Exception`, so a provider exception or a sort-key
`ValueError` becomes the `{"error": str(e)}` envelope. -/
def get_mlb_game_lineup (provider : Except String BoxScoreRaw) (game_id : Int) :
    LineupResult :=
  match provider with
  | .error e => .err e
  | .ok box =>
    match normalize_box box with
    | .error e => .err e
    | .ok teams => .ok game_id teams

instance {ε α : Type} [DecidableEq ε] [DecidableEq α] : DecidableEq (Except ε α) :=
  fun x y =>
    match x, y with
    | .ok a, .ok b =>
        if h : a = b then .isTrue (by rw [h]) else .isFalse (by simp [h])
    | .error a, .error b =>
        if h : a = b then .isTrue (by rw [h]) else .isFalse (by simp [h])
    | .ok _, .error _ => .isFalse (by simp)
    | .error _, .ok _ => .isFalse (by simp)

/-- Shorthand for a player record that differs from the all-defaulted one
only in its batting order. -/
def samplePlayer (bo : Option String) : PlayerInfo :=
  ⟨none, "Unknown", none, [], bo, []⟩

/-- Is the lineup operation's returned object the error envelope? -/
def LineupResult.isErr : LineupResult → Bool
  | .err _ => true
  | _ => false

/-! ## Operation envelopes

Each tool returns a JSON object that is either a single-keyed success
payload (`{"team_info": ...}`), a bare payload (operations that return the
provider's object directly), or the uniform `{"error": <message>}` result.
Provider calls are passed in as functions returning `Except String`, whose
`error` constructor models a raised exception with message `str(e)`. -/

/-- The shape of a tool's returned object. -/
inductive Envelope (α : Type) where
  | keyed (key : String) (val : α)
  | bare (val : α)
  | error (msg : String)
deriving DecidableEq, Repr

/-- Is the returned object the `{"error": ...}` envelope? -/
def Envelope.isErr {α : Type} : Envelope α → Bool
  | .error _ => true
  | _ => false

/-- The message of `get_mlb_team_info` / `get_mlb_roster` when resolution
fails: `f"Could not find team ID for '{team}'"`. -/
def notFoundMsg (team : String) : String :=
  "Could not find team ID for " ++ sq ++ team ++ sq

/-- `get_mlb_team_info(team, ...)`: resolve the team, error out on
`None`, otherwise delegate to `mlb.get_team` and wrap under
`"team_info"`; any raised exception becomes the error envelope. -/
def get_mlb_team_info {α : Type} (table : List TeamRow)
    (provider : Int → Except String α) (team : String) : Envelope α :=
  match get_team_id_from_name table team with
  | none => .error (notFoundMsg team)
  | some team_id =>
    match provider team_id with
    | .ok v => .keyed "team_info" v
    | .error e => .error e

/-- `get_mlb_roster(team, ..., start_date, ...)`: the date guard runs
first, then resolution with the same `None` check, then the provider call
whose result is returned bare. -/
def get_mlb_roster {α : Type} (table : List TeamRow)
    (provider : Int → Except String α) (team : String) (start_date : String) :
    Envelope α :=
  if start_date.data.isEmpty then .error "start_date is required"
  else
    match get_team_id_from_name table team with
    | none => .error (notFoundMsg team)
    | some team_id =>
      match provider team_id with
      | .ok v => .bare v
      | .error e => .error e

/-- `get_mlb_schedule(start_date, end_date, sport_id, team)`: the team is
resolved first — with no `None` check — then the date guard runs, then the
provider is called with whatever `team_id` resolution produced. -/
def get_mlb_schedule {α : Type} (table : List TeamRow)
    (provider : Option Int → Except String α)
    (start_date end_date : String) (team : Option String) : Envelope α :=
  let team_id : Option Int :=
    match team with
    | none => none
    | some t => get_team_id_from_name table t
  if start_date.data.isEmpty || end_date.data.isEmpty then
    .error "start_date and end_date are required"
  else
    match provider team_id with
    | .ok v => .keyed "schedule" v
    | .error e => .error e

/-! ## Multi-player stats (`get_multiple_player_stats` and its tool) -/

/-- One element of `response.data["people"]`; `stats` is `none` when the
`"stats"` key is absent or falsy, and the payload type `σ` stands for the
raw per-person stats blob handed to the external `create_split_data`. -/
structure PersonRec (σ : Type) where
  stats : Option σ
deriving DecidableEq, Repr

/-- The people-endpoint response used by the helper. -/
structure MlbResponse (σ : Type) where
  status_code : Nat
  people : List (PersonRec σ)
deriving DecidableEq, Repr

/-- What the helper returns: the bare `{}` on a client-error status, or
the list of splits built from each person carrying stats. -/
inductive StatsResult (σ : Type) where
  | emptyDict
  | splits (l : List σ)
deriving DecidableEq, Repr

/-- The `hydrate` fragments: `group=[...]`, `type=[...]`, `season=...`,
each included only when its source is truthy (`if season:` is false for
`0` as well as `None`). -/
def build_hydrate (stats groups : List String) (season : Option Int) :
    List String :=
  (if groups.isEmpty then [] else
    ["group=[" ++ String.intercalate "," groups ++ "]"]) ++
  (if stats.isEmpty then [] else
    ["type=[" ++ String.intercalate "," stats ++ "]"]) ++
  (match season with
   | some s => if s = 0 then [] else ["season=" ++ toString s]
   | none => [])

/-- The endpoint string the helper hands to `mlb._mlb_adapter_v1.get`. -/
def stats_endpoint (person_ids hydrate_arr : List String) : String :=
  "people?personIds=" ++ String.intercalate "," person_ids ++
    "&hydrate=stats(" ++ String.intercalate "," hydrate_arr ++ ")"

/-- `get_multiple_player_stats(mlb, person_ids, stats, groups, season)`:
a 4xx status returns the bare `{}`, otherwise the splits of every person
whose `"stats"` entry is truthy.  No `try` here — a provider exception
propagates to the calling tool. -/
def get_multiple_player_stats {σ : Type}
    (provider : String → Except String (MlbResponse σ))
    (person_ids stats groups : List String) (season : Option Int) :
    Except String (StatsResult σ) :=
  match provider (stats_endpoint person_ids (build_hydrate stats groups season)) with
  | .error e => .error e
  | .ok resp =>
    if 400 ≤ resp.status_code ∧ resp.status_code ≤ 499 then .ok .emptyDict
    else .ok (.splits (resp.people.filterMap (fun p => p.stats)))

/-- Python `s.split(",")` on a character list. -/
def splitComma : List Char → List (List Char)
  | [] => [[]]
  | c :: cs =>
    let r := splitComma cs
    if c = ',' then [] :: r
    else
      match r with
      | [] => [[c]]
      | h :: t => (c :: h) :: t

/-- `get_multiple_mlb_player_stats(player_ids, group, type, season, ...)`:
split and strip the ID list, pick the stat/group lists, delegate to the
helper, wrap under `"player_stats"`; exceptions become the error
envelope. -/
def get_multiple_mlb_player_stats {σ : Type}
    (provider : String → Except String (MlbResponse σ))
    (player_ids : String) (group type_ : Option String) (season : Option Int) :
    Envelope (StatsResult σ) :=
  let player_ids_list :=
    (splitComma player_ids.data).map (fun cs => String.mk (pyStrip cs))
  let stats := if type_ = some "season" then ["season", "seasonAdvanced"] else ["career"]
  let groups :=
    match group with
    | some g => if g.data.isEmpty then ["hitting"] else [g]
    | none => ["hitting"]
  match get_multiple_player_stats provider player_ids_list stats groups season with
  | .ok r => .keyed "player_stats" r
  | .error e => .error e

/-- A small concrete reference table used by witnesses: two names contain
"sox" as a substring, none equals "sox" exactly. -/
def sampleTable : List TeamRow :=
  [⟨111, "Boston Red Sox", "BOS", "Boston"⟩,
   ⟨145, "Chicago White Sox", "CWS", "Chicago"⟩,
   ⟨121, "New York Mets", "NYM", "New York"⟩]

/-! ## Sanity checks of the embedding on concrete inputs -/

example : pyInt "147" = some 147 := by decide

example : pyInt " -23 " = some (-23) := by decide

example : pyInt "nyy" = none := by decide

example : get_team_id_from_name sampleTable "boston red sox" = some 111 := by decide

example : get_team_id_from_name sampleTable "Sox" = some 111 := by decide

example : sort_key (samplePlayer (some "900")) = some 9 := by decide

example : sort_key (samplePlayer (some "0")) = none := by decide

example :
    sort_players [samplePlayer (some "200"), samplePlayer none, samplePlayer (some "100")] =
      .ok [samplePlayer (some "100"), samplePlayer (some "200"), samplePlayer none] := by
  decide

example :
    get_multiple_mlb_player_stats (σ := Nat)
        (fun _ => .ok ⟨200, [⟨some 5⟩, ⟨none⟩]⟩) "1,2" none none none =
      .keyed "player_stats" (.splits [5]) := by decide

/-! ## Shared helper lemmas -/

/-- When no name in the table matches exactly or by substring, resolution
of a non-numeric query reaches the final `return None`. -/
theorem resolver_none_of_no_match (table : List TeamRow) (team : String)
    (hnum : pyInt team = none)
    (hname : ∀ x ∈ table,
      exact_match (normQuery team) x = false ∧ substr_match (normQuery team) x = false) :
    get_team_id_from_name table team = none := by
  have h1 : table.find? (exact_match (normQuery team)) = none :=
    List.find?_eq_none.mpr (fun x hx => by simp [(hname x hx).1])
  have h2 : table.find? (substr_match (normQuery team)) = none :=
    List.find?_eq_none.mpr (fun x hx => by simp [(hname x hx).2])
  simp [get_team_id_from_name, hnum, h1, h2]

/-- A side whose extracted players all have defined sort keys normalizes to
the defaulted identity fields plus the stably sorted player list. -/
theorem build_team_ok (td : TeamDataRaw)
    (hk : ∀ p ∈ raw_players td, (sort_key p).isSome) :
    build_team td =
      .ok ⟨td.team.name.getD "Unknown", td.team.id,
            List.insertionSort battingLE (raw_players td)⟩ := by
  have hfind : (raw_players td).find? (fun p => (sort_key p).isNone) = none :=
    List.find?_eq_none.mpr (fun p hp => by
      simp [Option.isNone_iff_eq_none, ← Option.isSome_iff_ne_none]
      exact hk p hp)
  simp [build_team, sort_players, hfind]

/-- An `.ok` result of the sorting step is exactly the stable insertion
sort of its input. -/
theorem sort_players_ok (ps out : List PlayerInfo)
    (h : sort_players ps = .ok out) :
    out = List.insertionSort battingLE ps := by
  unfold sort_players at h
  cases hf : ps.find? (fun p => (sort_key p).isNone) with
  | none => rw [hf] at h; exact (Except.ok.injEq _ _ |>.mp h).symm
  | some p => rw [hf] at h; cases h

/-! ## Claims -/

/-- Claim C5: a query that parses fully as a base-10 integer is returned
directly as the canonical id, for every reference table — so without
reading the table and without validating that the id exists in it. -/
theorem numeric_passthrough (table : List TeamRow) (team : String) (n : Int)
    (h : pyInt team = some n) :
    get_team_id_from_name table team = some n := by
  simp [get_team_id_from_name, h]

/-- Claim C5 witness: `"147"` resolves to `147` against a table that does
not contain the id `147`. -/
theorem numeric_passthrough_witness :
    pyInt "147" = some 147 ∧ get_team_id_from_name sampleTable "147" = some 147 :=
  ⟨by decide, numeric_passthrough sampleTable "147" 147 (by decide)⟩

/-- Claim C3: when some record of the table matches the normalized query
exactly (and all exact matchers share one canonical id), resolution
returns that record's id — the exact scan covers the whole table before
any substring match is attempted, so an earlier substring-only record
cannot win. -/
theorem exact_match_precedence (table : List TeamRow) (team : String) (r : TeamRow)
    (hnum : pyInt team = none) (hmem : r ∈ table)
    (hexact : exact_match (normQuery team) r = true)
    (huniq : ∀ r' ∈ table,
      exact_match (normQuery team) r' = true → r'.team_id = r.team_id) :
    get_team_id_from_name table team = some r.team_id := by
  have hsome : (table.find? (exact_match (normQuery team))).isSome :=
    List.find?_isSome.mpr ⟨r, hmem, hexact⟩
  obtain ⟨r', hr'⟩ := Option.isSome_iff_exists.mp hsome
  have hid : r'.team_id = r.team_id :=
    huniq r' (List.mem_of_find?_eq_some hr') (List.find?_some hr')
  simp [get_team_id_from_name, hnum, hr', hid]

/-- Claim C3 witness: `"red sox"` matches `"Boston Red Sox Red"` by
substring in the first row but `"Red Sox"` exactly in the second, and the
exact match wins despite coming later in table order. -/
theorem exact_match_precedence_witness :
    get_team_id_from_name
      [⟨111, "Boston Red Sox Red", "BOS", "Boston"⟩, ⟨999, "Red Sox", "RSX", "Boston"⟩]
      "red sox" = some 999 :=
  exact_match_precedence
    [⟨111, "Boston Red Sox Red", "BOS", "Boston"⟩, ⟨999, "Red Sox", "RSX", "Boston"⟩]
    "red sox" ⟨999, "Red Sox", "RSX", "Boston"⟩
    (by decide) (by decide) (by decide) (by decide)

/-- Claim C6: with no exact match anywhere, the substring scan returns the
id of the first matching record in table iteration order. -/
theorem substring_first_match (team : String) (l1 l2 : List TeamRow) (r : TeamRow)
    (hnum : pyInt team = none)
    (hnoexact : ∀ x ∈ l1 ++ r :: l2, exact_match (normQuery team) x = false)
    (hbefore : ∀ x ∈ l1, substr_match (normQuery team) x = false)
    (hsub : substr_match (normQuery team) r = true) :
    get_team_id_from_name (l1 ++ r :: l2) team = some r.team_id := by
  have hexnone : (l1 ++ r :: l2).find? (exact_match (normQuery team)) = none :=
    List.find?_eq_none.mpr (fun x hx => by simp [hnoexact x hx])
  have h1 : l1.find? (substr_match (normQuery team)) = none :=
    List.find?_eq_none.mpr (fun x hx => by simp [hbefore x hx])
  have hsubfind : (l1 ++ r :: l2).find? (substr_match (normQuery team)) = some r := by
    rw [List.find?_append, h1, Option.none_or, List.find?_cons_of_pos _ hsub]
  simp [get_team_id_from_name, hnum, hexnone, hsubfind]

/-- Claim C6 witness: both Sox rows of the sample table contain `"sox"`,
no exact match exists, and the first row in table order wins. -/
theorem substring_first_match_witness :
    get_team_id_from_name sampleTable "Sox" = some 111 :=
  substring_first_match "Sox" []
    [⟨145, "Chicago White Sox", "CWS", "Chicago"⟩, ⟨121, "New York Mets", "NYM", "New York"⟩]
    ⟨111, "Boston Red Sox", "BOS", "Boston"⟩
    (by decide) (by decide) (by decide) (by decide)

/-- Claim C4 counterexample: the query `"nyy"` is exactly the (case-folded)
abbreviation of the one record of the table, yet resolution returns
`none` — the claimed id `147` is not returned, because only
`display_name` is ever consulted. -/
theorem abbreviation_match_counterexample :
    strContains (normQuery "nyy")
        (strLower (TeamRow.abbreviation ⟨147, "New York Yankees", "NYY", "New York"⟩)) = true ∧
      get_team_id_from_name [⟨147, "New York Yankees", "NYY", "New York"⟩] "nyy" = none := by
  decide

/-- Claim C4 (amended): a non-numeric query is matched only against
`display_name`; whenever no name matches exactly or by substring the
resolver returns `none`, regardless of the `abbreviation` and `location`
columns of the table. -/
theorem name_only_matching (table : List TeamRow) (team : String)
    (hnum : pyInt team = none)
    (hname : ∀ x ∈ table,
      exact_match (normQuery team) x = false ∧ substr_match (normQuery team) x = false) :
    get_team_id_from_name table team = none :=
  resolver_none_of_no_match table team hnum hname

/-- Claim C4 (amended) witness: `"nyy"` matches no display name of its
table (though it is the case-folded abbreviation of one row) and resolves
to `none`. -/
theorem name_only_matching_witness :
    get_team_id_from_name [⟨147, "New York Yankees", "NYY", "New York"⟩] "nyy" = none :=
  name_only_matching [⟨147, "New York Yankees", "NYY", "New York"⟩] "nyy"
    (by decide) (by decide)

/-- Claim C7: a non-numeric query matching no record resolves to `None`,
which is distinguishable from every successful canonical id (in
particular a zero-valued one), and `get_mlb_team_info` converts it into
the uniform error envelope instead of crashing. -/
theorem not_found_signaling {α : Type} (table : List TeamRow) (team : String)
    (provider : Int → Except String α)
    (hnum : pyInt team = none)
    (hname : ∀ x ∈ table,
      exact_match (normQuery team) x = false ∧ substr_match (normQuery team) x = false) :
    get_team_id_from_name table team = none ∧
      (∀ id : Int, get_team_id_from_name table team ≠ some id) ∧
      get_mlb_team_info table provider team = .error (notFoundMsg team) := by
  have h := resolver_none_of_no_match table team hnum hname
  refine ⟨h, ?_, ?_⟩
  · intro id hc
    rw [h] at hc
    cases hc
  · simp [get_mlb_team_info, h]

/-- Claim C7 witness: `"Zzznoteam"` resolves to `none` (distinguishable
from `some 0`) and the team-info operation returns the error envelope. -/
theorem not_found_signaling_witness :
    get_team_id_from_name sampleTable "Zzznoteam" = none ∧
      (∀ id : Int, get_team_id_from_name sampleTable "Zzznoteam" ≠ some id) ∧
      get_mlb_team_info sampleTable (fun t => .ok t) "Zzznoteam" =
        .error (notFoundMsg "Zzznoteam") :=
  not_found_signaling sampleTable "Zzznoteam" (fun t => .ok t) (by decide) (by decide)

/-- Claim C10: an unresolvable team string makes `get_mlb_schedule` drop
the team filter silently — the provider is called with a null team id and
the unfiltered schedule is returned under `"schedule"` — while
`get_mlb_team_info` and `get_mlb_roster` return the error envelope for
the same string. -/
theorem schedule_drops_unresolvable_team {α : Type} (table : List TeamRow)
    (team : String) (provS : Option Int → Except String α)
    (provT provR : Int → Except String α) (sd ed : String) (s : α)
    (hres : get_team_id_from_name table team = none)
    (hsd : sd.data.isEmpty = false) (hed : ed.data.isEmpty = false)
    (hprov : provS none = .ok s) :
    get_mlb_schedule table provS sd ed (some team) = .keyed "schedule" s ∧
      get_mlb_team_info table provT team = .error (notFoundMsg team) ∧
      get_mlb_roster table provR team sd = .error (notFoundMsg team) := by
  refine ⟨?_, ?_, ?_⟩
  · simp [get_mlb_schedule, hres, hsd, hed, hprov]
  · simp [get_mlb_team_info, hres]
  · simp [get_mlb_roster, hres, hsd]

/-- Claim C10 witness: for `"Zzznoteam"` the schedule operation returns
the unfiltered schedule while team info and roster error out. -/
theorem schedule_drops_unresolvable_team_witness :
    get_mlb_schedule sampleTable (fun _ => .ok (7 : Int)) "2024-07-01" "2024-07-02"
        (some "Zzznoteam") = .keyed "schedule" (7 : Int) ∧
      get_mlb_team_info sampleTable (fun t => .ok t) "Zzznoteam" =
        .error (notFoundMsg "Zzznoteam") ∧
      get_mlb_roster sampleTable (fun t => .ok t) "Zzznoteam" "2024-07-01" =
        .error (notFoundMsg "Zzznoteam") :=
  schedule_drops_unresolvable_team sampleTable "Zzznoteam" (fun _ => .ok (7 : Int))
    (fun t => .ok t) (fun t => .ok t) "2024-07-01" "2024-07-02" 7
    (by decide) (by decide) (by decide) (by decide)

/-- Claim C2 counterexample: a client-error status (404) from the people
endpoint makes the multi-player-stats operation return
`{"player_stats": {}}` — an object whose only key is `player_stats`, not
`error`. -/
theorem client_error_not_enveloped :
    get_multiple_mlb_player_stats (σ := Nat) (fun _ => .ok ⟨404, []⟩)
        "1,2" none none none = .keyed "player_stats" .emptyDict ∧
      (get_multiple_mlb_player_stats (σ := Nat) (fun _ => .ok ⟨404, []⟩)
        "1,2" none none none).isErr = false := by
  decide

/-- Claim C2 (amended): any exception raised by the upstream provider
during the call is converted at every modelled operation boundary into the
`{"error": <message>}` envelope, with no uncaught fault; a client-error
status from the people endpoint, however, makes the multi-player-stats
operation return an empty success payload under `"player_stats"` rather
than an error object. -/
theorem error_envelope_uniformity {α σ : Type} (e : String) (gid : Int)
    (table : List TeamRow) (sd ed team : String) (teamOpt : Option String)
    (tid : Int) (pids : String) (group type_ : Option String)
    (season : Option Int) (resp : MlbResponse σ)
    (hsd : sd.data.isEmpty = false) (hed : ed.data.isEmpty = false)
    (hres : get_team_id_from_name table team = some tid)
    (hstatus : 400 ≤ resp.status_code ∧ resp.status_code ≤ 499) :
    get_mlb_game_lineup (.error e) gid = .err e ∧
      get_multiple_mlb_player_stats (σ := σ) (fun _ => .error e)
        pids group type_ season = .error e ∧
      get_mlb_schedule (α := α) table (fun _ => .error e) sd ed teamOpt = .error e ∧
      get_mlb_team_info (α := α) table (fun _ => .error e) team = .error e ∧
      get_mlb_roster (α := α) table (fun _ => .error e) team sd = .error e ∧
      get_multiple_mlb_player_stats (fun _ => .ok resp) pids group type_ season =
        .keyed "player_stats" .emptyDict := by
  refine ⟨rfl, ?_, ?_, ?_, ?_, ?_⟩
  · simp [get_multiple_mlb_player_stats, get_multiple_player_stats]
  · simp [get_mlb_schedule, hsd, hed]
  · simp [get_mlb_team_info, hres]
  · simp [get_mlb_roster, hsd, hres]
  · simp [get_multiple_mlb_player_stats, get_multiple_player_stats, hstatus.1, hstatus.2]

/-- Claim C2 (amended) witness: at a concrete forced exception `"boom"`
every modelled operation returns the error envelope, and a concrete 404
people response yields the `player_stats`-keyed empty payload. -/
theorem error_envelope_uniformity_witness :
    get_mlb_game_lineup (.error "boom") 1 = .err "boom" ∧
      get_multiple_mlb_player_stats (σ := Nat) (fun _ => .error "boom")
        "1,2" none none none = .error "boom" ∧
      get_mlb_schedule (α := Nat) sampleTable (fun _ => .error "boom")
        "2024-07-01" "2024-07-02" (some "111") = .error "boom" ∧
      get_mlb_team_info (α := Nat) sampleTable (fun _ => .error "boom")
        "111" = .error "boom" ∧
      get_mlb_roster (α := Nat) sampleTable (fun _ => .error "boom")
        "111" "2024-07-01" = .error "boom" ∧
      get_multiple_mlb_player_stats (σ := Nat) (fun _ => .ok ⟨404, []⟩)
        "1,2" none none none = .keyed "player_stats" .emptyDict :=
  error_envelope_uniformity "boom" 1 sampleTable "2024-07-01" "2024-07-02"
    "111" (some "111") 111 "1,2" none none none ⟨404, []⟩
    (by decide) (by decide) (by decide) (by decide)

/-- Claim C8: a raw box score with one side absent normalizes to an output
carrying only the present side — no key and no synthesized placeholder for
the absent one — and the present side's `team_name` defaults to
`"Unknown"` and `team_id` to null when the identity fields are missing. -/
theorem partial_side_tolerance (td : TeamDataRaw) (gid : Int)
    (hk : ∀ p ∈ raw_players td, (sort_key p).isSome) :
    (∃ ti : TeamInfo,
        get_mlb_game_lineup (.ok ⟨some ⟨none, some td⟩⟩) gid = .ok gid ⟨none, some ti⟩ ∧
          (td.team.name = none → ti.team_name = "Unknown") ∧
          (td.team.id = none → ti.team_id = none)) ∧
    (∃ ti : TeamInfo,
        get_mlb_game_lineup (.ok ⟨some ⟨some td, none⟩⟩) gid = .ok gid ⟨some ti, none⟩ ∧
          (td.team.name = none → ti.team_name = "Unknown") ∧
          (td.team.id = none → ti.team_id = none)) := by
  have hb := build_team_ok td hk
  constructor
  · refine ⟨⟨td.team.name.getD "Unknown", td.team.id,
      List.insertionSort battingLE (raw_players td)⟩, ?_, ?_, ?_⟩
    · simp [get_mlb_game_lineup, normalize_box, build_side, hb, Except.map]
    · intro hn; simp [hn]
    · intro hi; simp [hi]
  · refine ⟨⟨td.team.name.getD "Unknown", td.team.id,
      List.insertionSort battingLE (raw_players td)⟩, ?_, ?_, ?_⟩
    · simp [get_mlb_game_lineup, normalize_box, build_side, hb, Except.map]
    · intro hn; simp [hn]
    · intro hi; simp [hi]

/-- Claim C8 witness: a home-only box score whose team object lacks both
identity fields normalizes to a home-only output with the defaulted
identity. -/
theorem partial_side_tolerance_witness :
    (∃ ti : TeamInfo,
        get_mlb_game_lineup
            (.ok ⟨some ⟨none, some ⟨⟨none, none⟩,
              some [("id1", ⟨⟨some 1, some "Player One"⟩, some "10", none, some "100", none⟩)]⟩⟩⟩) 5 =
          .ok 5 ⟨none, some ti⟩ ∧
          ((⟨⟨none, none⟩,
              some [("id1", ⟨⟨some 1, some "Player One"⟩, some "10", none, some "100", none⟩)]⟩ :
            TeamDataRaw).team.name = none → ti.team_name = "Unknown") ∧
          ((⟨⟨none, none⟩,
              some [("id1", ⟨⟨some 1, some "Player One"⟩, some "10", none, some "100", none⟩)]⟩ :
            TeamDataRaw).team.id = none → ti.team_id = none)) ∧
    (∃ ti : TeamInfo,
        get_mlb_game_lineup
            (.ok ⟨some ⟨some ⟨⟨none, none⟩,
              some [("id1", ⟨⟨some 1, some "Player One"⟩, some "10", none, some "100", none⟩)]⟩, none⟩⟩) 5 =
          .ok 5 ⟨some ti, none⟩ ∧
          ((⟨⟨none, none⟩,
              some [("id1", ⟨⟨some 1, some "Player One"⟩, some "10", none, some "100", none⟩)]⟩ :
            TeamDataRaw).team.name = none → ti.team_name = "Unknown") ∧
          ((⟨⟨none, none⟩,
              some [("id1", ⟨⟨some 1, some "Player One"⟩, some "10", none, some "100", none⟩)]⟩ :
            TeamDataRaw).team.id = none → ti.team_id = none)) :=
  partial_side_tolerance
    ⟨⟨none, none⟩,
      some [("id1", ⟨⟨some 1, some "Player One"⟩, some "10", none, some "100", none⟩)]⟩
    5 (by decide)

/-- Claim C9 counterexample: an otherwise well-formed box score in which a
single player's batting-order string is `"0"` (whose zero-stripped
remainder is empty) makes the whole lineup request return the top-level
error envelope. -/
theorem malformed_batting_order_aborts :
    get_mlb_game_lineup
        (.ok ⟨some ⟨none, some ⟨⟨some "Boston Red Sox", some 111⟩,
          some [("id1", ⟨⟨some 1, some "Player One"⟩, some "10", none, some "0", none⟩)]⟩⟩⟩) 7 =
      .err ("invalid literal for int() with base 10: " ++ sq ++ sq) ∧
    (get_mlb_game_lineup
        (.ok ⟨some ⟨none, some ⟨⟨some "Boston Red Sox", some 111⟩,
          some [("id1", ⟨⟨some 1, some "Player One"⟩, some "10", none, some "0", none⟩)]⟩⟩⟩) 7).isErr
      = true := by
  decide

/-- Claim C9 (amended): every missing optional field of a player entry is
replaced by its default independently and never makes the normalizer
raise — a box score whose (present) sides' players all have parseable
sort keys normalizes successfully whatever else is absent, and the
all-absent player entry maps to the fully defaulted record — but a
batting-order value whose zero-stripped remainder fails integer parsing
aborts the whole request with the error envelope. -/
theorem independent_field_defaults (box : BoxScoreRaw) (gid : Int)
    (h : ∀ ts, box.teams = some ts →
      (∀ td, ts.away = some td → ∀ p ∈ raw_players td, (sort_key p).isSome) ∧
      (∀ td, ts.home = some td → ∀ p ∈ raw_players td, (sort_key p).isSome)) :
    (∃ t, get_mlb_game_lineup (.ok box) gid = .ok gid t) ∧
      extract_player ⟨⟨none, none⟩, none, none, none, none⟩ =
        ⟨none, "Unknown", none, [], none, []⟩ := by
  refine ⟨?_, rfl⟩
  cases hts : box.teams with
  | none => exact ⟨⟨none, none⟩, by simp [get_mlb_game_lineup, normalize_box, hts]⟩
  | some ts =>
    obtain ⟨ha, hh⟩ := h ts hts
    cases hta : ts.away with
    | none =>
      cases hth : ts.home with
      | none =>
        exact ⟨⟨none, none⟩,
          by simp [get_mlb_game_lineup, normalize_box, hts, build_side, hta, hth]⟩
      | some td =>
        exact ⟨⟨none, some ⟨td.team.name.getD "Unknown", td.team.id,
            List.insertionSort battingLE (raw_players td)⟩⟩,
          by simp [get_mlb_game_lineup, normalize_box, hts, build_side, hta, hth,
            build_team_ok td (hh td hth), Except.map]⟩
    | some td1 =>
      cases hth : ts.home with
      | none =>
        exact ⟨⟨some ⟨td1.team.name.getD "Unknown", td1.team.id,
            List.insertionSort battingLE (raw_players td1)⟩, none⟩,
          by simp [get_mlb_game_lineup, normalize_box, hts, build_side, hta, hth,
            build_team_ok td1 (ha td1 hta), Except.map]⟩
      | some td2 =>
        exact ⟨⟨some ⟨td1.team.name.getD "Unknown", td1.team.id,
            List.insertionSort battingLE (raw_players td1)⟩,
          some ⟨td2.team.name.getD "Unknown", td2.team.id,
            List.insertionSort battingLE (raw_players td2)⟩⟩,
          by simp [get_mlb_game_lineup, normalize_box, hts, build_side, hta, hth,
            build_team_ok td1 (ha td1 hta), build_team_ok td2 (hh td2 hth), Except.map]⟩

/-- Claim C9 (amended) witness: a box score in which nearly every optional
field of both sides is absent still normalizes successfully. -/
theorem independent_field_defaults_witness :
    (∃ t, get_mlb_game_lineup
        (.ok ⟨some ⟨some ⟨⟨none, none⟩, some [("id9", ⟨⟨none, none⟩, none, none, none, none⟩)]⟩,
                    some ⟨⟨none, none⟩, none⟩⟩⟩) 3 = .ok 3 t) ∧
      extract_player ⟨⟨none, none⟩, none, none, none, none⟩ =
        ⟨none, "Unknown", none, [], none, []⟩ :=
  independent_field_defaults
    ⟨some ⟨some ⟨⟨none, none⟩, some [("id9", ⟨⟨none, none⟩, none, none, none, none⟩)]⟩,
            some ⟨⟨none, none⟩, none⟩⟩⟩ 3
    (by intro ts hts
        cases hts
        constructor <;> (intro td htd; cases htd; decide))

/-- Claim C1 counterexample: with one entry whose batting-order string
`"1111"` has sort key `1111` and one entry with no batting order (sort
key `999`), the produced list places the absent-key entry first — the
claim's "absent entries sort after all entries that have one" fails. -/
theorem absent_before_present_counterexample :
    sort_players [samplePlayer none, samplePlayer (some "1111")] =
        .ok [samplePlayer none, samplePlayer (some "1111")] ∧
      (samplePlayer none).batting_order = none ∧
      (samplePlayer (some "1111")).batting_order = some "1111" := by
  decide

/-- Claim C1 (amended): every produced player list is a stable ascending
sort of the extracted entries by the key obtained by removing every
literal `'0'` character of the batting-order string and parsing the
remainder (absent entries getting the sentinel key `999`): the output is
a permutation of the input, sorted by key, every key-sorted subsequence of
the input survives in order, and — whenever every present key is below
`999` — entries with an absent batting order come after all entries that
have one. -/
theorem batting_order_sort (ps out : List PlayerInfo)
    (h : sort_players ps = .ok out) :
    List.Perm out ps ∧
      List.Sorted battingLE out ∧
      (∀ c : List PlayerInfo, c.Pairwise battingLE → c.Sublist ps → c.Sublist out) ∧
      ((∀ p ∈ ps, p.batting_order ≠ none → sort_keyD p < 999) →
        out.Pairwise (fun p q => p.batting_order = none → q.batting_order = none)) := by
  obtain rfl := sort_players_ok ps out h
  refine ⟨List.perm_insertionSort battingLE ps, List.sorted_insertionSort battingLE ps,
    fun c hc hcs => List.sublist_insertionSort hc hcs, ?_⟩
  intro hsmall
  have hs : List.Pairwise battingLE (List.insertionSort battingLE ps) :=
    List.sorted_insertionSort battingLE ps
  refine List.Pairwise.imp_of_mem ?_ hs
  intro a b ha hb hab hanone
  by_contra hbnone
  have hbmem : b ∈ ps := (List.perm_insertionSort battingLE ps).mem_iff.mp hb
  have hlt : sort_keyD b < 999 := hsmall b hbmem hbnone
  have hab' : sort_keyD a ≤ sort_keyD b := hab
  have ha999 : sort_keyD a = 999 := by simp [sort_keyD, sort_key, hanone]
  omega

/-- Claim C1 (amended) witness: entries `"200"`, absent, `"100"` come out
as `[100, 200, absent]`, a stable ascending sort with the absent entry
last. -/
theorem batting_order_sort_witness :
    List.Perm
        [samplePlayer (some "100"), samplePlayer (some "200"), samplePlayer none]
        [samplePlayer (some "200"), samplePlayer none, samplePlayer (some "100")] ∧
      List.Sorted battingLE
        [samplePlayer (some "100"), samplePlayer (some "200"), samplePlayer none] ∧
      (∀ c : List PlayerInfo, c.Pairwise battingLE →
        c.Sublist [samplePlayer (some "200"), samplePlayer none, samplePlayer (some "100")] →
        c.Sublist [samplePlayer (some "100"), samplePlayer (some "200"), samplePlayer none]) ∧
      ((∀ p ∈ [samplePlayer (some "200"), samplePlayer none, samplePlayer (some "100")],
          p.batting_order ≠ none → sort_keyD p < 999) →
        List.Pairwise (fun p q => p.batting_order = none → q.batting_order = none)
          [samplePlayer (some "100"), samplePlayer (some "200"), samplePlayer none]) :=
  batting_order_sort
    [samplePlayer (some "200"), samplePlayer none, samplePlayer (some "100")]
    [samplePlayer (some "100"), samplePlayer (some "200"), samplePlayer none]
    (by decide)

end MlbApi
